import Mathlib

/-!
Verification of the sitcheck person-counting pipeline.

The Python sources are embedded shallowly: numeric values use `ℚ` and `ℤ`,
fallible calls return `Except`, and the mutable loops become explicit state
passing. Definitions keep the names of the source functions they embed.
-/

namespace Sitcheck

/-! ### Python primitives -/

/-- Python `round` on a rational: nearest integer, ties to even
(banker rounding, as CPython `round` behaves on numeric values). -/
def pyRound (q : ℚ) : ℤ :=
  let f : ℤ := ⌊q⌋
  let r : ℚ := q - f
  if r < 1/2 then f
  else if 1/2 < r then f + 1
  else if f % 2 = 0 then f else f + 1

/-- Python `round(q, n)`: round to `n` decimal digits. -/
def pyRoundTo (q : ℚ) (n : ℕ) : ℚ :=
  (pyRound (q * (10 : ℚ) ^ n) : ℚ) / (10 : ℚ) ^ n

/-- Python exceptions that the embedded code can raise. -/
inductive PyErr where
  | attributeError (attr : String)
  | typeError (msg : String)
  | keyboardInterrupt
deriving DecidableEq, Repr

/-! ### TimeSeriesAnalyzer (src/TimeSeriesAnalyzer.py)

`_analyze_pair` consumes one row of the paired-detections query: ids,
per-source person counts, per-source confidences (nullable) and the signed
time difference between the two timestamps. -/

structure PairRow where
  x_id : ℕ
  y_id : ℕ
  x_persons : ℤ
  y_persons : ℤ
  x_confidence : Option ℚ
  y_confidence : Option ℚ
  time_diff : ℚ
deriving DecidableEq, Repr

/-- The `analysis_data` dictionary built by `_analyze_pair`. -/
structure AnalysisData where
  method : String
  weighted_persons : ℚ
  time_penalty : ℚ
  x_confidence : ℚ
  y_confidence : ℚ
  difference : ℤ
  agreement : Bool
deriving DecidableEq, Repr

/-- The result dictionary returned by `_analyze_pair` (one
CorrelatedEstimate, as handed to the insert call). -/
structure CorrelatedResult where
  source_x_id : ℕ
  source_y_id : ℕ
  persons_x : ℤ
  persons_y : ℤ
  estimated_actual : ℤ
  confidence : ℚ
  time_diff : ℚ
  analysis_data : AnalysisData
deriving DecidableEq, Repr

/-- The two analysis parameters set in `TimeSeriesAnalyzer.__init__`. -/
structure TimeSeriesAnalyzer where
  max_time_diff : ℚ
  confidence_threshold : ℚ
deriving DecidableEq, Repr

/-- `__init__` defaults: `max_time_diff = 5.0`, `confidence_threshold = 0.5`. -/
def TimeSeriesAnalyzer.defaults : TimeSeriesAnalyzer :=
  { max_time_diff := 5, confidence_threshold := 1/2 }

/-- `float(pair[key]) if pair[key] is not None else 0.0`. -/
def confDefault (c : Option ℚ) : ℚ := c.getD 0

/-- `TimeSeriesAnalyzer._estimate_actual_persons`, line for line. -/
def _estimate_actual_persons (x_persons y_persons : ℤ) (x_conf y_conf : ℚ) : ℤ :=
  if x_persons = y_persons then x_persons
  else if 2 < |x_persons - y_persons| then max x_persons y_persons
  else
    let conf_diff := |x_conf - y_conf|
    if 1/10 < conf_diff then
      if y_conf < x_conf then x_persons else y_persons
    else
      pyRound (((x_persons : ℚ) * x_conf + (y_persons : ℚ) * y_conf) / (x_conf + y_conf))

/-- `TimeSeriesAnalyzer._analyze_pair`, line for line. Returns `none`
exactly when the quality gate discards the pair. -/
def _analyze_pair (a : TimeSeriesAnalyzer) (pair : PairRow) : Option CorrelatedResult :=
  let x_persons := pair.x_persons
  let y_persons := pair.y_persons
  let x_conf := confDefault pair.x_confidence
  let y_conf := confDefault pair.y_confidence
  let time_diff := |pair.time_diff|
  if x_conf < a.confidence_threshold ∨ y_conf < a.confidence_threshold then
    none
  else
    let time_penalty := max 0 (1 - time_diff / a.max_time_diff)
    let total_weight := x_conf + y_conf
    let weighted_persons := ((x_persons : ℚ) * x_conf + (y_persons : ℚ) * y_conf) / total_weight
    let estimated_persons := _estimate_actual_persons x_persons y_persons x_conf y_conf
    let result_confidence := (x_conf + y_conf) / 2 * time_penalty
    some
      { source_x_id := pair.x_id
        source_y_id := pair.y_id
        persons_x := x_persons
        persons_y := y_persons
        estimated_actual := estimated_persons
        confidence := result_confidence
        time_diff := time_diff
        analysis_data :=
          { method := "weighted_average"
            weighted_persons := pyRoundTo weighted_persons 2
            time_penalty := pyRoundTo time_penalty 3
            x_confidence := pyRoundTo x_conf 3
            y_confidence := pyRoundTo y_conf 3
            difference := |x_persons - y_persons|
            agreement := x_persons == y_persons } }

/-- The per-cycle result collection of `analyze_and_store` (lines 71 to 75):
every pair is analyzed and the non-discarded results are kept in order. -/
def cycleResults (a : TimeSeriesAnalyzer) (pairs : List PairRow) : List CorrelatedResult :=
  pairs.filterMap (_analyze_pair a)

end Sitcheck

namespace Sitcheck

/-! ### Claims C1, C2, C3, C10 -/

/-- C1: for every candidate pair passing the quality gate the estimate is
computed by the first matching rule, in order: equal counts return that
count; a count gap above 2 returns the maximum; a confidence gap above 0.1
returns the higher-confidence count; otherwise the confidence-weighted
rounded average. For `x=2, y=4, cx=0.65, cy=0.88` the estimate is 4. -/
theorem estimate_rule_fixed_order :
    (∀ (x y : ℤ) (cx cy : ℚ),
      (x = y → _estimate_actual_persons x y cx cy = x) ∧
      (x ≠ y → 2 < |x - y| → _estimate_actual_persons x y cx cy = max x y) ∧
      (x ≠ y → |x - y| ≤ 2 → 1/10 < |cx - cy| →
        _estimate_actual_persons x y cx cy = if cy < cx then x else y) ∧
      (x ≠ y → |x - y| ≤ 2 → |cx - cy| ≤ 1/10 →
        _estimate_actual_persons x y cx cy =
          pyRound (((x : ℚ) * cx + (y : ℚ) * cy) / (cx + cy)))) ∧
    (∀ (a : TimeSeriesAnalyzer) (p : PairRow),
      a.confidence_threshold ≤ confDefault p.x_confidence →
      a.confidence_threshold ≤ confDefault p.y_confidence →
      (_analyze_pair a p).map CorrelatedResult.estimated_actual =
        some (_estimate_actual_persons p.x_persons p.y_persons
          (confDefault p.x_confidence) (confDefault p.y_confidence))) ∧
    _estimate_actual_persons 2 4 (13/20) (22/25) = 4 := by
  refine ⟨?_, ?_, ?_⟩
  · intro x y cx cy
    refine ⟨?_, ?_, ?_, ?_⟩
    · intro h
      unfold _estimate_actual_persons
      rw [if_pos h]
    · intro h1 h2
      unfold _estimate_actual_persons
      rw [if_neg h1, if_pos h2]
    · intro h1 h2 h3
      unfold _estimate_actual_persons
      rw [if_neg h1, if_neg (not_lt.mpr h2)]
      show (if 1/10 < |cx - cy| then (if cy < cx then x else y)
        else pyRound (((x : ℚ) * cx + (y : ℚ) * cy) / (cx + cy))) = _
      rw [if_pos h3]
    · intro h1 h2 h3
      unfold _estimate_actual_persons
      rw [if_neg h1, if_neg (not_lt.mpr h2)]
      show (if 1/10 < |cx - cy| then (if cy < cx then x else y)
        else pyRound (((x : ℚ) * cx + (y : ℚ) * cy) / (cx + cy))) = _
      rw [if_neg (not_lt.mpr h3)]
  · intro a p hx hy
    have hgate : ¬(confDefault p.x_confidence < a.confidence_threshold ∨
        confDefault p.y_confidence < a.confidence_threshold) := by
      rintro (h | h)
      · exact absurd h (not_lt.mpr hx)
      · exact absurd h (not_lt.mpr hy)
    simp [_analyze_pair, hgate]
  · have h1 : ((2 : ℤ)) ≠ 4 := by decide
    have h2 : ¬(2 < |(2 : ℤ) - 4|) := by decide
    have h3 : (1 : ℚ)/10 < |13/20 - 22/25| := by
      rw [lt_abs]
      right
      norm_num
    have h4 : ¬((22 : ℚ)/25 < 13/20) := by norm_num
    unfold _estimate_actual_persons
    rw [if_neg h1, if_neg h2]
    show (if (1:ℚ)/10 < |13/20 - 22/25| then (if (22:ℚ)/25 < 13/20 then 2 else 4)
      else pyRound ((((2 : ℤ) : ℚ) * (13/20) + ((4 : ℤ) : ℚ) * (22/25)) / (13/20 + 22/25))) = 4
    rw [if_pos h3, if_neg h4]

/-- Concrete check of rule d (scenario B numbers `x=5, y=4, cx=0.78, cy=0.81`),
obtained from `estimate_rule_fixed_order` with its hypotheses discharged. -/
theorem estimate_rule_fixed_order_witness :
    _estimate_actual_persons 5 4 (39/50) (81/100) =
      pyRound ((((5 : ℤ) : ℚ) * (39/50) + ((4 : ℤ) : ℚ) * (81/100)) / ((39:ℚ)/50 + 81/100)) :=
  (estimate_rule_fixed_order.1 5 4 (39/50) (81/100)).2.2.2 (by decide) (by decide)
    (by rw [abs_sub_le_iff]; constructor <;> norm_num)

end Sitcheck

namespace Sitcheck

/-- Scenario D pair: `x=7, y=7, cx=0.92, cy=0.90`, time difference `d`. -/
def scenarioD (d : ℚ) : PairRow :=
  { x_id := 1, y_id := 2, x_persons := 7, y_persons := 7,
    x_confidence := some (23/25), y_confidence := some (9/10), time_diff := d }

/-- C2: for every gate-passing pair the persisted result confidence is
`avg(cx, cy) * timePenalty` with `timePenalty = max(0, 1 - |dt| / maxTimeDiff)`;
for `x=7, y=7, cx=0.92, cy=0.90` the estimate is 7 and the confidence is that
product. -/
theorem result_confidence_time_penalty :
    (∀ (a : TimeSeriesAnalyzer) (p : PairRow),
      a.confidence_threshold ≤ confDefault p.x_confidence →
      a.confidence_threshold ≤ confDefault p.y_confidence →
      (_analyze_pair a p).map CorrelatedResult.confidence =
        some ((confDefault p.x_confidence + confDefault p.y_confidence) / 2 *
          max 0 (1 - |p.time_diff| / a.max_time_diff))) ∧
    (∀ d : ℚ,
      (_analyze_pair TimeSeriesAnalyzer.defaults (scenarioD d)).map
          CorrelatedResult.estimated_actual = some 7 ∧
      (_analyze_pair TimeSeriesAnalyzer.defaults (scenarioD d)).map
          CorrelatedResult.confidence =
        some ((23/25 + 9/10) / 2 * max 0 (1 - |d| / 5))) := by
  have hmap : ∀ (a : TimeSeriesAnalyzer) (p : PairRow),
      a.confidence_threshold ≤ confDefault p.x_confidence →
      a.confidence_threshold ≤ confDefault p.y_confidence →
      (_analyze_pair a p).map CorrelatedResult.confidence =
        some ((confDefault p.x_confidence + confDefault p.y_confidence) / 2 *
          max 0 (1 - |p.time_diff| / a.max_time_diff)) := by
    intro a p hx hy
    have hgate : ¬(confDefault p.x_confidence < a.confidence_threshold ∨
        confDefault p.y_confidence < a.confidence_threshold) := by
      rintro (h | h)
      · exact absurd h (not_lt.mpr hx)
      · exact absurd h (not_lt.mpr hy)
    simp [_analyze_pair, hgate]
  refine ⟨hmap, ?_⟩
  intro d
  have hx : TimeSeriesAnalyzer.defaults.confidence_threshold ≤
      confDefault (scenarioD d).x_confidence := by
    simp [TimeSeriesAnalyzer.defaults, scenarioD, confDefault]
    norm_num
  have hy : TimeSeriesAnalyzer.defaults.confidence_threshold ≤
      confDefault (scenarioD d).y_confidence := by
    simp [TimeSeriesAnalyzer.defaults, scenarioD, confDefault]
    norm_num
  have hgate : ¬(confDefault (scenarioD d).x_confidence <
        TimeSeriesAnalyzer.defaults.confidence_threshold ∨
      confDefault (scenarioD d).y_confidence <
        TimeSeriesAnalyzer.defaults.confidence_threshold) := by
    rintro (h | h)
    · exact absurd h (not_lt.mpr hx)
    · exact absurd h (not_lt.mpr hy)
  constructor
  · have hest : (_analyze_pair TimeSeriesAnalyzer.defaults (scenarioD d)).map
        CorrelatedResult.estimated_actual =
        some (_estimate_actual_persons (scenarioD d).x_persons (scenarioD d).y_persons
          (confDefault (scenarioD d).x_confidence) (confDefault (scenarioD d).y_confidence)) := by
      simp [_analyze_pair, hgate]
    rw [hest]
    simp [scenarioD, _estimate_actual_persons]
  · have := hmap TimeSeriesAnalyzer.defaults (scenarioD d) hx hy
    rw [this]
    simp [scenarioD, confDefault, TimeSeriesAnalyzer.defaults]

/-- Concrete instance of `result_confidence_time_penalty`: the scenario D pair
at time difference 1 second, hypotheses discharged. -/
theorem result_confidence_time_penalty_witness :
    (_analyze_pair TimeSeriesAnalyzer.defaults (scenarioD 1)).map
        CorrelatedResult.confidence =
      some ((confDefault (scenarioD 1).x_confidence +
          confDefault (scenarioD 1).y_confidence) / 2 *
        max 0 (1 - |(scenarioD 1).time_diff| /
          TimeSeriesAnalyzer.defaults.max_time_diff)) :=
  result_confidence_time_penalty.1 TimeSeriesAnalyzer.defaults (scenarioD 1)
    (by simp [TimeSeriesAnalyzer.defaults, scenarioD, confDefault]; norm_num)
    (by simp [TimeSeriesAnalyzer.defaults, scenarioD, confDefault]; norm_num)

end Sitcheck

namespace Sitcheck

/-- C3: a pair with `min(cx, cy)` below the confidence threshold is discarded
by `_analyze_pair` and never contributes to the results of a pairing cycle, and
every result of a cycle comes from a pair that passed the quality gate; with
the default threshold 0.5, a pair with `cx = 0.3` yields nothing. -/
theorem quality_gate_only :
    (∀ (a : TimeSeriesAnalyzer) (p : PairRow),
      min (confDefault p.x_confidence) (confDefault p.y_confidence) <
        a.confidence_threshold →
      _analyze_pair a p = none) ∧
    (∀ (a : TimeSeriesAnalyzer) (pairs : List PairRow) (r : CorrelatedResult),
      r ∈ cycleResults a pairs →
      ∃ p ∈ pairs, _analyze_pair a p = some r ∧
        a.confidence_threshold ≤
          min (confDefault p.x_confidence) (confDefault p.y_confidence)) ∧
    (∀ p : PairRow, p.x_confidence = some (3/10) →
      _analyze_pair TimeSeriesAnalyzer.defaults p = none) := by
  have hgate : ∀ (a : TimeSeriesAnalyzer) (p : PairRow),
      min (confDefault p.x_confidence) (confDefault p.y_confidence) <
        a.confidence_threshold →
      _analyze_pair a p = none := by
    intro a p h
    rw [min_lt_iff] at h
    rcases h with h | h
    · simp [_analyze_pair, h]
    · simp [_analyze_pair, h]
  refine ⟨hgate, ?_, ?_⟩
  · intro a pairs r hr
    rw [cycleResults, List.mem_filterMap] at hr
    obtain ⟨p, hp, he⟩ := hr
    refine ⟨p, hp, he, ?_⟩
    by_contra hc
    rw [hgate a p (not_le.mp hc)] at he
    exact Option.noConfusion he
  · intro p hp
    apply hgate
    rw [hp]
    apply min_lt_iff.mpr
    left
    show (3 : ℚ)/10 < TimeSeriesAnalyzer.defaults.confidence_threshold
    norm_num [TimeSeriesAnalyzer.defaults]

/-- Scenario E pair: `cx = 0.3`, below the default threshold. -/
def scenarioE : PairRow :=
  { x_id := 1, y_id := 2, x_persons := 3, y_persons := 3,
    x_confidence := some (3/10), y_confidence := some (9/10), time_diff := 0 }

/-- Concrete instance of `quality_gate_only`: the scenario E pair is
discarded under the default threshold. -/
theorem quality_gate_only_witness :
    _analyze_pair TimeSeriesAnalyzer.defaults scenarioE = none :=
  quality_gate_only.2.2 scenarioE rfl

/-- C10: a pair in which either confidence field is absent is given the
substitute value 0.0, so with any positive confidence threshold the pair
fails the quality gate and `_analyze_pair` returns `none`. -/
theorem missing_confidence_discarded (a : TimeSeriesAnalyzer) (p : PairRow)
    (ht : 0 < a.confidence_threshold)
    (h : p.x_confidence = none ∨ p.y_confidence = none) :
    _analyze_pair a p = none := by
  rcases h with h | h
  · have hx : confDefault p.x_confidence < a.confidence_threshold := by
      rw [h]
      simpa [confDefault] using ht
    simp [_analyze_pair, hx]
  · have hy : confDefault p.y_confidence < a.confidence_threshold := by
      rw [h]
      simpa [confDefault] using ht
    simp [_analyze_pair, hy]

/-- Pair with a missing x-side confidence. -/
def scenarioNoConf : PairRow :=
  { x_id := 1, y_id := 2, x_persons := 3, y_persons := 4,
    x_confidence := none, y_confidence := some (9/10), time_diff := 0 }

/-- Concrete instance of `missing_confidence_discarded` at the default
parameters. -/
theorem missing_confidence_discarded_witness :
    _analyze_pair TimeSeriesAnalyzer.defaults scenarioNoConf = none :=
  missing_confidence_discarded TimeSeriesAnalyzer.defaults scenarioNoConf
    (by norm_num [TimeSeriesAnalyzer.defaults]) (Or.inl rfl)

end Sitcheck

namespace Sitcheck

/-! ### DatabaseHandler attribute surface (src/DatabaseHandler.py)

The class body defines exactly these methods, and `__init__` sets exactly
these instance attributes; Python attribute lookup on any other name raises
`AttributeError`. -/

/-- Attributes of a `DatabaseHandler` instance: the instance attributes set
in `__init__` followed by the methods defined in the class body. -/
def databaseHandlerAttrs : List String :=
  ["host", "user", "password", "database", "port", "connection", "logger",
   "connect", "create_tables", "insert_run",
   "_safe_convert_to_bool", "_safe_convert_to_float",
   "_safe_convert_to_int_nullable",
   "insert_result", "update_run_completion", "close"]

/-- Python attribute lookup on a `DatabaseHandler` instance. -/
def dbGetattr (name : String) : Except PyErr Unit :=
  if name ∈ databaseHandlerAttrs then Except.ok () else
    Except.error (PyErr.attributeError name)

/-- Outcome of `LiveProcessor._process_image` for one item. -/
structure ProcessImageOutcome where
  observation_written : Bool
  raised : Option PyErr
deriving DecidableEq, Repr

/-- `LiveProcessor._process_image`: runs the detector, then calls
`self.db.insert_detection`; the whole body is wrapped in
`try ... except Exception`, which catches any detector failure and any
`AttributeError` from the missing insert method, prints, and returns. -/
def _process_image (detect_res : Except String Unit) : ProcessImageOutcome :=
  match detect_res with
  | Except.error _ => { observation_written := false, raised := none }
  | Except.ok _ =>
    match dbGetattr ("insert_detection") with
    | Except.error _ => { observation_written := false, raised := none }
    | Except.ok _ => { observation_written := true, raised := none }

/-- Outcome of one call of `TimeSeriesAnalyzer.analyze_and_store`. -/
structure AnalyzeStoreOutcome where
  escaped : Option PyErr
  connection_closed : Bool
deriving DecidableEq, Repr

/-- `TimeSeriesAnalyzer.analyze_and_store`: returns early when `connect`
fails; otherwise the loop body immediately calls
`self.db.get_paired_detections`, and only `KeyboardInterrupt` is caught by
the `try` block, whose `finally` clause closes the connection. -/
def analyze_and_store (connect_ok : Bool) : AnalyzeStoreOutcome :=
  if connect_ok then
    match dbGetattr ("get_paired_detections") with
    | Except.error e =>
      if e = PyErr.keyboardInterrupt then
        { escaped := none, connection_closed := true }
      else
        { escaped := some e, connection_closed := true }
    | Except.ok _ => { escaped := none, connection_closed := true }
  else
    { escaped := none, connection_closed := false }

/-- C4: `DatabaseHandler` defines none of the observation-path methods the
core calls; consequently `LiveProcessor._process_image` writes no
observation and raises nothing (the per-item handler catches the
`AttributeError`), while `analyze_and_store` after a successful connect lets
the `AttributeError` escape, still closing the connection in `finally`. -/
theorem missing_repository_methods :
    ("insert_detection" ∉ databaseHandlerAttrs ∧
     "get_paired_detections" ∉ databaseHandlerAttrs ∧
     "insert_correlated_result" ∉ databaseHandlerAttrs) ∧
    (∀ detect_res : Except String Unit,
      (_process_image detect_res).observation_written = false ∧
      (_process_image detect_res).raised = none) ∧
    ((analyze_and_store true).escaped =
        some (PyErr.attributeError ("get_paired_detections")) ∧
      (analyze_and_store true).connection_closed = true) := by
  refine ⟨by decide, ?_, by decide⟩
  intro detect_res
  cases detect_res with
  | error e => exact ⟨rfl, rfl⟩
  | ok u =>
    have hmem : "insert_detection" ∉ databaseHandlerAttrs := by decide
    have h : dbGetattr ("insert_detection") =
        Except.error (PyErr.attributeError ("insert_detection")) := by
      rw [dbGetattr, if_neg hmem]
    constructor
    · show (match dbGetattr ("insert_detection") with
        | Except.error _ => ({ observation_written := false, raised := none } : ProcessImageOutcome)
        | Except.ok _ => { observation_written := true, raised := none }).observation_written = false
      rw [h]
    · show (match dbGetattr ("insert_detection") with
        | Except.error _ => ({ observation_written := false, raised := none } : ProcessImageOutcome)
        | Except.ok _ => { observation_written := true, raised := none }).raised = none
      rw [h]

end Sitcheck

namespace Sitcheck

/-! ### Constructor argument binding (src/DetectionProcessor.py,
src/DataLoader.py, src/LiveDataProcessor.py)

CPython binds the arguments of a call to the parameter list of the callee; a missing
required parameter, an unexpected keyword, or a keyword colliding with a
positional argument raises `TypeError`. -/

/-- One parameter of a Python signature: its name and whether it has a
default value. -/
structure PyParam where
  name : String
  has_default : Bool
deriving DecidableEq, Repr

/-- CPython argument binding for a call with `n_positional` positional
arguments and keyword arguments `kwargs` against signature `params`. -/
def bindArgs (params : List PyParam) (n_positional : ℕ) (kwargs : List String) :
    Except PyErr Unit :=
  if params.length < n_positional then
    Except.error (PyErr.typeError ("too many positional arguments"))
  else
    if kwargs.any (fun k => ((params.take n_positional).map PyParam.name).contains k) then
      Except.error (PyErr.typeError ("multiple values for argument"))
    else if kwargs.any (fun k => !(params.map PyParam.name).contains k) then
      Except.error (PyErr.typeError ("unexpected keyword argument"))
    else if (params.drop n_positional).any
        (fun p => !p.has_default && !kwargs.contains p.name) then
      Except.error (PyErr.typeError ("missing required positional argument"))
    else
      Except.ok ()

/-- `LiveImageLoader.__init__(self, dir_x, dir_y, poll_interval=0.5)`. -/
def liveImageLoaderParams : List PyParam :=
  [{ name := "dir_x", has_default := false },
   { name := "dir_y", has_default := false },
   { name := "poll_interval", has_default := true }]

/-- `DatabaseHandler.__init__(self, host, user, password, database, port=5432)`. -/
def databaseHandlerParams : List PyParam :=
  [{ name := "host", has_default := false },
   { name := "user", has_default := false },
   { name := "password", has_default := false },
   { name := "database", has_default := false },
   { name := "port", has_default := true }]

/-- `DetectionProcessor.__init__`: assigns `self.detector`, then calls
`DatabaseHandler(**db_config)` (keyword arguments are the keys of the
config dictionary), then calls `LiveImageLoader(data_dir)` with one
positional argument. -/
def detectionProcessorInit (db_config_keys : List String) : Except PyErr Unit := do
  bindArgs databaseHandlerParams 0 db_config_keys
  bindArgs liveImageLoaderParams 1 []

/-- `LiveDetectionProcessor.__init__`: calls
`LiveImageLoader(input_x, input_y)` with two positional arguments and then
constructs a `DetectionProcessor`. -/
def liveDetectionProcessorInit (db_config_keys : List String) : Except PyErr Unit := do
  bindArgs liveImageLoaderParams 2 []
  detectionProcessorInit db_config_keys

/-- `bindArgs` either succeeds or raises a `TypeError`. -/
theorem bindArgs_ok_or_typeError (params : List PyParam) (n : ℕ) (ks : List String) :
    bindArgs params n ks = Except.ok () ∨
      ∃ m, bindArgs params n ks = Except.error (PyErr.typeError m) := by
  rw [bindArgs]
  split_ifs
  · exact Or.inr ⟨_, rfl⟩
  · exact Or.inr ⟨_, rfl⟩
  · exact Or.inr ⟨_, rfl⟩
  · exact Or.inr ⟨_, rfl⟩
  · exact Or.inl rfl

/-- C5: for every `db_config`, constructing a `DetectionProcessor` raises
`TypeError` — `LiveImageLoader(data_dir)` passes one positional argument
while `dir_x` and `dir_y` are both required — and therefore
`LiveDetectionProcessor.__init__`, which constructs one, raises as well, so
neither batch-mode orchestration nor live start can obtain a constructed
processor. -/
theorem detection_processor_init_raises :
    (∀ db_config_keys : List String,
      ∃ m, detectionProcessorInit db_config_keys =
        Except.error (PyErr.typeError m)) ∧
    (∀ db_config_keys : List String,
      ∃ m, liveDetectionProcessorInit db_config_keys =
        Except.error (PyErr.typeError m)) := by
  have hloader : bindArgs liveImageLoaderParams 1 [] =
      Except.error (PyErr.typeError ("missing required positional argument")) := by
    rfl
  have hmain : ∀ ks : List String,
      ∃ m, detectionProcessorInit ks = Except.error (PyErr.typeError m) := by
    intro ks
    rcases bindArgs_ok_or_typeError databaseHandlerParams 0 ks with h | ⟨m, h⟩
    · refine ⟨"missing required positional argument", ?_⟩
      rw [detectionProcessorInit, h]
      show bindArgs liveImageLoaderParams 1 [] = _
      exact hloader
    · refine ⟨m, ?_⟩
      rw [detectionProcessorInit, h]
      rfl
  refine ⟨hmain, ?_⟩
  intro ks
  have hok : bindArgs liveImageLoaderParams 2 [] = Except.ok () := by rfl
  obtain ⟨m, hm⟩ := hmain ks
  refine ⟨m, ?_⟩
  rw [liveDetectionProcessorInit, hok]
  show detectionProcessorInit ks = _
  exact hm

end Sitcheck

namespace Sitcheck

/-! ### LiveImageLoader (src/DataLoader.py)

A directory is a finite enumeration of files; each file records its name,
its extension, and whether `cv2.imread` can decode it ( `imread` returning
`None`, or raising, both leave `_load_and_delete` returning `None`).
Regular-file status is part of eligibility in the source; the model
enumerates regular files only. -/

structure SrcFile where
  name : String
  suffix : String
  decodable : Bool
deriving DecidableEq, Repr

/-- `self.supported_formats`. -/
def supported_formats : List String :=
  [".jpg", ".jpeg", ".png", ".bmp", ".tiff", ".tif", ".webp"]

/-- Python `str.lower`, character by character. -/
def pyLower (s : String) : String := String.mk (s.data.map Char.toLower)

/-- The eligibility test of `_get_next_image_path`:
`file.suffix.lower() in self.supported_formats`. -/
def eligibleFile (f : SrcFile) : Bool :=
  supported_formats.contains (pyLower f.suffix)

/-- `LiveImageLoader._get_next_image_path`: first eligible file in the
enumeration order of the directory. -/
def _get_next_image_path (dir : List SrcFile) : Option SrcFile :=
  dir.find? eligibleFile

/-- `LiveImageLoader._load_and_delete`: on successful decode the file is
unlinked and the image returned; on failed decode (or an exception) the
directory is untouched and `None` is returned. -/
def _load_and_delete (dir : List SrcFile) (f : SrcFile) :
    List SrcFile × Option String :=
  if f.decodable then (dir.erase f, some f.name) else (dir, none)

/-- One scan of one directory inside `watch`: find the next image, attempt
load-and-delete, and yield the decoded image if any. -/
def cycleDir (dir : List SrcFile) : List SrcFile × List String :=
  match _get_next_image_path dir with
  | none => (dir, [])
  | some f =>
    match _load_and_delete dir f with
    | (dir2, some img) => (dir2, [img])
    | (dir2, none) => (dir2, [])

/-- The two watched directories of a `LiveImageLoader`. -/
structure LoaderState where
  dir_x : List SrcFile
  dir_y : List SrcFile
deriving DecidableEq, Repr

/-- One poll cycle of `watch`: scan `dir_x`, then `dir_y`. -/
def pollCycle (s : LoaderState) : LoaderState × List String × List String :=
  ({ dir_x := (cycleDir s.dir_x).1, dir_y := (cycleDir s.dir_y).1 },
    (cycleDir s.dir_x).2, (cycleDir s.dir_y).2)

/-- `n` poll cycles of `watch`. -/
def runCycles : ℕ → LoaderState → LoaderState
  | 0, s => s
  | n + 1, s => runCycles n (pollCycle s).1

/-- Evaluation of `_load_and_delete` on a decodable file. -/
theorem load_and_delete_decodable (dir : List SrcFile) (f : SrcFile)
    (hd : f.decodable = true) :
    _load_and_delete dir f = (dir.erase f, some f.name) := by
  rw [_load_and_delete, if_pos hd]

/-- Evaluation of `_load_and_delete` on an undecodable file. -/
theorem load_and_delete_undecodable (dir : List SrcFile) (f : SrcFile)
    (hd : f.decodable = false) :
    _load_and_delete dir f = (dir, none) := by
  rw [_load_and_delete, if_neg (by rw [hd]; exact Bool.false_ne_true)]

/-- Evaluation of `cycleDir` when the scan finds a decodable file. -/
theorem cycleDir_found_decodable (dir : List SrcFile) (f : SrcFile)
    (hfind : _get_next_image_path dir = some f) (hd : f.decodable = true) :
    cycleDir dir = (dir.erase f, [f.name]) := by
  rw [cycleDir, hfind]
  show (match _load_and_delete dir f with
    | (dir2, some img) => (dir2, [img])
    | (dir2, none) => (dir2, [])) = _
  rw [load_and_delete_decodable dir f hd]

/-- Evaluation of `cycleDir` when the scan finds an undecodable file. -/
theorem cycleDir_found_undecodable (dir : List SrcFile) (f : SrcFile)
    (hfind : _get_next_image_path dir = some f) (hd : f.decodable = false) :
    cycleDir dir = (dir, []) := by
  rw [cycleDir, hfind]
  show (match _load_and_delete dir f with
    | (dir2, some img) => (dir2, [img])
    | (dir2, none) => (dir2, [])) = _
  rw [load_and_delete_undecodable dir f hd]

theorem cycleDir_keeps_undecodable (dir : List SrcFile) (f : SrcFile)
    (hf : f.decodable = false) (hmem : f ∈ dir) : f ∈ (cycleDir dir).1 := by
  cases hfind : _get_next_image_path dir with
  | none =>
    have : cycleDir dir = (dir, []) := by rw [cycleDir, hfind]
    rw [this]
    exact hmem
  | some g =>
    by_cases hg : g.decodable = true
    · rw [cycleDir_found_decodable dir g hfind hg]
      have hne : f ≠ g := by
        intro h
        rw [h, hg] at hf
        exact Bool.noConfusion hf
      exact (List.mem_erase_of_ne hne).mpr hmem
    · rw [cycleDir_found_undecodable dir g hfind (Bool.eq_false_iff.mpr hg)]
      exact hmem

/-- C7: in the ingestion loop, a successfully decoded file is deleted from
the directory state at the moment its image is yielded; an undecodable file
is left in place with nothing yielded, the very same file is found again by
the next scan, and it is still present after any number of poll cycles. -/
theorem ingestion_retry_policy :
    (∀ (dir : List SrcFile) (f : SrcFile),
      _get_next_image_path dir = some f → f.decodable = true →
      cycleDir dir = (dir.erase f, [f.name])) ∧
    (∀ (dir : List SrcFile) (f : SrcFile),
      _get_next_image_path dir = some f → f.decodable = false →
      cycleDir dir = (dir, []) ∧
        _get_next_image_path (cycleDir dir).1 = some f) ∧
    (∀ (n : ℕ) (s : LoaderState) (f : SrcFile), f.decodable = false →
      (f ∈ s.dir_x → f ∈ (runCycles n s).dir_x) ∧
      (f ∈ s.dir_y → f ∈ (runCycles n s).dir_y)) := by
  refine ⟨?_, ?_, ?_⟩
  · intro dir f hfind hdec
    exact cycleDir_found_decodable dir f hfind hdec
  · intro dir f hfind hdec
    have hcycle : cycleDir dir = (dir, []) := cycleDir_found_undecodable dir f hfind hdec
    exact ⟨hcycle, by rw [hcycle]; exact hfind⟩
  · intro n
    induction n with
    | zero => intro s f _; exact ⟨id, id⟩
    | succ m ih =>
      intro s f hdec
      constructor
      · intro hmem
        show f ∈ (runCycles m (pollCycle s).1).dir_x
        exact (ih (pollCycle s).1 f hdec).1 (cycleDir_keeps_undecodable s.dir_x f hdec hmem)
      · intro hmem
        show f ∈ (runCycles m (pollCycle s).1).dir_y
        exact (ih (pollCycle s).1 f hdec).2 (cycleDir_keeps_undecodable s.dir_y f hdec hmem)

/-- An undecodable file blocking a decodable one behind it. -/
def blockedDir : List SrcFile :=
  [{ name := "bad.jpg", suffix := ".jpg", decodable := false },
   { name := "good.png", suffix := ".png", decodable := true }]

/-- Concrete instance of `ingestion_retry_policy`: the undecodable first
file leaves the directory unchanged and is found again on the next scan. -/
theorem ingestion_retry_policy_witness :
    cycleDir blockedDir = (blockedDir, []) ∧
      _get_next_image_path (cycleDir blockedDir).1 =
        some { name := "bad.jpg", suffix := ".jpg", decodable := false } :=
  ingestion_retry_policy.2.1 blockedDir
    { name := "bad.jpg", suffix := ".jpg", decodable := false } (by decide) (by decide)

end Sitcheck

namespace Sitcheck

/-! ### UltralyticsPersonDetector.detect (src/UltralyticsPersonDetector.py)
and DatabaseHandler.insert_result (src/DatabaseHandler.py)

A YOLO result box carries a class id and a confidence; `detect` keeps the
boxes of class 0 whose confidence reaches the threshold and aggregates
their confidences. -/

structure Box where
  cls : ℤ
  conf : ℚ
deriving DecidableEq, Repr

/-- The detection summary dictionary returned by `detect` (the fields the
persistence path reads). -/
structure DetectOut where
  persons_detected : ℕ
  confidences : List ℚ
  avg_confidence : ℚ
  max_confidence : ℚ
  min_confidence : ℚ
  uncertain : Bool
deriving DecidableEq, Repr

/-- `np.mean` of a list. -/
def listMean (l : List ℚ) : ℚ := l.sum / l.length

/-- Python `max` of a nonempty list, 0.0 when the guard hands an empty one. -/
def listMax : List ℚ → ℚ
  | [] => 0
  | c :: cs => cs.foldl max c

/-- Python `min` of a nonempty list, 0.0 when the guard hands an empty one. -/
def listMin : List ℚ → ℚ
  | [] => 0
  | c :: cs => cs.foldl min c

/-- `UltralyticsPersonDetector.detect` on the boxes the model reports:
keeps class-0 boxes at or above the confidence threshold and summarises
their confidences (each `if confidences else` guard becomes a match on
emptiness). -/
def detect (confidence_threshold : ℚ) (boxes : List Box) : DetectOut :=
  let confidences :=
    (boxes.filter (fun b => decide (b.cls = 0 ∧ confidence_threshold ≤ b.conf))).map Box.conf
  { persons_detected := confidences.length
    confidences := confidences
    avg_confidence := if confidences.isEmpty then 0 else listMean confidences
    max_confidence := if confidences.isEmpty then 0 else listMax confidences
    min_confidence := if confidences.isEmpty then 0 else listMin confidences
    uncertain := if confidences.isEmpty then false
      else confidences.any (fun c => decide (c < 7/10)) }

/-- `DatabaseHandler._safe_convert_to_float` restricted to numeric-or-null
input (the NaN and non-numeric branches, which also yield null, concern
float payloads outside this model). -/
def _safe_convert_to_float (v : Option ℚ) : Option ℚ := v

/-- `DatabaseHandler._safe_convert_to_int_nullable` on numeric-or-null
input. -/
def _safe_convert_to_int_nullable (v : Option ℤ) : Option ℤ := v

/-- The observation columns `insert_result` stores. -/
structure StoredResult where
  persons_detected : ℤ
  avg_confidence : Option ℚ
  max_confidence : Option ℚ
  min_confidence : Option ℚ
deriving DecidableEq, Repr

/-- `DatabaseHandler.insert_result`: the conversion of a detector output
dictionary into the stored columns (`x or 0` on the converted count maps
null to 0 and keeps 0 at 0). -/
def insert_result (model_output : Option DetectOut) : StoredResult :=
  match model_output with
  | none =>
    { persons_detected := (_safe_convert_to_int_nullable (some 0)).getD 0
      avg_confidence := none
      max_confidence := none
      min_confidence := none }
  | some m =>
    { persons_detected :=
        (_safe_convert_to_int_nullable (some (m.persons_detected : ℤ))).getD 0
      avg_confidence := _safe_convert_to_float (some m.avg_confidence)
      max_confidence := _safe_convert_to_float (some m.max_confidence)
      min_confidence := _safe_convert_to_float (some m.min_confidence) }

/-- A nullable confidence column is absent or in the unit interval. -/
def confAbsentOrUnit (c : Option ℚ) : Prop := ∀ q, c = some q → 0 ≤ q ∧ q ≤ 1

/-- Bounds of a left fold by `max`. -/
theorem foldl_max_unit (l : List ℚ) : ∀ a : ℚ, 0 ≤ a → a ≤ 1 →
    (∀ x ∈ l, 0 ≤ x ∧ x ≤ 1) → 0 ≤ l.foldl max a ∧ l.foldl max a ≤ 1 := by
  induction l with
  | nil => intro a h0 h1 _; exact ⟨h0, h1⟩
  | cons c cs ih =>
    intro a h0 h1 hl
    have hc := hl c (List.mem_cons_self c cs)
    have hrest : ∀ x ∈ cs, 0 ≤ x ∧ x ≤ 1 := fun x hx => hl x (List.mem_cons_of_mem c hx)
    exact ih (max a c) (le_trans h0 (le_max_left a c))
      (max_le h1 hc.2) hrest

/-- Bounds of a left fold by `min`. -/
theorem foldl_min_unit (l : List ℚ) : ∀ a : ℚ, 0 ≤ a → a ≤ 1 →
    (∀ x ∈ l, 0 ≤ x ∧ x ≤ 1) → 0 ≤ l.foldl min a ∧ l.foldl min a ≤ 1 := by
  induction l with
  | nil => intro a h0 h1 _; exact ⟨h0, h1⟩
  | cons c cs ih =>
    intro a h0 h1 hl
    have hc := hl c (List.mem_cons_self c cs)
    have hrest : ∀ x ∈ cs, 0 ≤ x ∧ x ≤ 1 := fun x hx => hl x (List.mem_cons_of_mem c hx)
    exact ih (min a c) (le_min h0 hc.1) (le_trans (min_le_left a c) h1) hrest

/-- A list with entries in the unit interval sums to at most its length. -/
theorem sum_le_length (l : List ℚ) (h : ∀ x ∈ l, x ≤ 1) : l.sum ≤ l.length := by
  induction l with
  | nil => simp
  | cons c cs ih =>
    have hc := h c (List.mem_cons_self c cs)
    have hrest := ih (fun x hx => h x (List.mem_cons_of_mem c hx))
    simp only [List.sum_cons, List.length_cons]
    push_cast
    linarith

/-- The mean of a nonempty list with entries in the unit interval lies in
the unit interval. -/
theorem listMean_unit (l : List ℚ) (hne : l ≠ [])
    (h : ∀ x ∈ l, 0 ≤ x ∧ x ≤ 1) : 0 ≤ listMean l ∧ listMean l ≤ 1 := by
  have hlen : (0 : ℚ) < l.length := by
    have : 0 < l.length := List.length_pos.mpr hne
    exact_mod_cast this
  constructor
  · exact div_nonneg (List.sum_nonneg (fun x hx => (h x hx).1)) (le_of_lt hlen)
  · rw [listMean, div_le_one hlen]
    exact sum_le_length l (fun x hx => (h x hx).2)

end Sitcheck

namespace Sitcheck

/-- C9: from model boxes whose confidences lie in the unit interval, the
detector output has a nonnegative count and avg/max/min confidences in
[0,1], and the observation row stored by `insert_result` from that output
keeps count at least 0 and every stored confidence absent or in [0,1]. -/
theorem observation_invariant (ct : ℚ) (boxes : List Box)
    (hb : ∀ b ∈ boxes, 0 ≤ b.conf ∧ b.conf ≤ 1) :
    (0 ≤ (detect ct boxes).avg_confidence ∧ (detect ct boxes).avg_confidence ≤ 1) ∧
    (0 ≤ (detect ct boxes).max_confidence ∧ (detect ct boxes).max_confidence ≤ 1) ∧
    (0 ≤ (detect ct boxes).min_confidence ∧ (detect ct boxes).min_confidence ≤ 1) ∧
    0 ≤ (insert_result (some (detect ct boxes))).persons_detected ∧
    confAbsentOrUnit (insert_result (some (detect ct boxes))).avg_confidence ∧
    confAbsentOrUnit (insert_result (some (detect ct boxes))).max_confidence ∧
    confAbsentOrUnit (insert_result (some (detect ct boxes))).min_confidence := by
  have hL : ∀ c ∈ (boxes.filter
        (fun b => decide (b.cls = 0 ∧ ct ≤ b.conf))).map Box.conf,
      0 ≤ c ∧ c ≤ 1 := by
    intro c hc
    rw [List.mem_map] at hc
    obtain ⟨b, hbmem, rfl⟩ := hc
    exact hb b (List.mem_filter.mp hbmem).1
  have hbig : ∀ L : List ℚ, (∀ c ∈ L, 0 ≤ c ∧ c ≤ 1) →
      (0 ≤ (if L.isEmpty then (0 : ℚ) else listMean L) ∧
        (if L.isEmpty then (0 : ℚ) else listMean L) ≤ 1) ∧
      (0 ≤ (if L.isEmpty then (0 : ℚ) else listMax L) ∧
        (if L.isEmpty then (0 : ℚ) else listMax L) ≤ 1) ∧
      (0 ≤ (if L.isEmpty then (0 : ℚ) else listMin L) ∧
        (if L.isEmpty then (0 : ℚ) else listMin L) ≤ 1) := by
    intro L hLu
    cases L with
    | nil => norm_num
    | cons c cs =>
      have hne : (c :: cs) ≠ ([] : List ℚ) := by simp
      have hc := hLu c (List.mem_cons_self c cs)
      have hcs : ∀ x ∈ cs, 0 ≤ x ∧ x ≤ 1 :=
        fun x hx => hLu x (List.mem_cons_of_mem c hx)
      have hmean := listMean_unit (c :: cs) hne hLu
      have hmax := foldl_max_unit cs c hc.1 hc.2 hcs
      have hmin := foldl_min_unit cs c hc.1 hc.2 hcs
      simpa using ⟨hmean, hmax, hmin⟩
  obtain ⟨havg, hmax, hmin⟩ := hbig _ hL
  refine ⟨havg, hmax, hmin, ?_, ?_, ?_, ?_⟩
  · exact Int.ofNat_nonneg _
  · intro q hq
    have : (detect ct boxes).avg_confidence = q := Option.some.inj hq
    rw [← this]
    exact havg
  · intro q hq
    have : (detect ct boxes).max_confidence = q := Option.some.inj hq
    rw [← this]
    exact hmax
  · intro q hq
    have : (detect ct boxes).min_confidence = q := Option.some.inj hq
    rw [← this]
    exact hmin

/-- Concrete boxes for `observation_invariant`: two persons above the
default threshold and one non-person box. -/
def witnessBoxes : List Box :=
  [{ cls := 0, conf := 9/10 }, { cls := 0, conf := 3/5 }, { cls := 7, conf := 1/2 }]

/-- Concrete instance of `observation_invariant` at threshold 0.5. -/
theorem observation_invariant_witness :
    (0 ≤ (detect (1/2) witnessBoxes).avg_confidence ∧
      (detect (1/2) witnessBoxes).avg_confidence ≤ 1) ∧
    (0 ≤ (detect (1/2) witnessBoxes).max_confidence ∧
      (detect (1/2) witnessBoxes).max_confidence ≤ 1) ∧
    (0 ≤ (detect (1/2) witnessBoxes).min_confidence ∧
      (detect (1/2) witnessBoxes).min_confidence ≤ 1) ∧
    0 ≤ (insert_result (some (detect (1/2) witnessBoxes))).persons_detected ∧
    confAbsentOrUnit (insert_result (some (detect (1/2) witnessBoxes))).avg_confidence ∧
    confAbsentOrUnit (insert_result (some (detect (1/2) witnessBoxes))).max_confidence ∧
    confAbsentOrUnit (insert_result (some (detect (1/2) witnessBoxes))).min_confidence :=
  observation_invariant (1/2) witnessBoxes (by
    intro b hb
    simp only [witnessBoxes, List.mem_cons, List.not_mem_nil, or_false] at hb
    rcases hb with rfl | rfl | rfl <;> norm_num)

end Sitcheck

namespace Sitcheck

/-! ### DetectionProcessor batch loop (src/DetectionProcessor.py)

`_process_single_image` wraps the detector call in `try/except Exception`,
but both its try path (line 154) and its handler (line 174) call
`self.data_loader.get_image_info`, and the loader constructed by
`__init__` is a `LiveImageLoader`, which has no such attribute; the
handler therefore raises `AttributeError` out of the per-item boundary.
`_execute_processing` reads `self.monitor` (line 98) before its `try`
block and `_save_result` reads `self.results_csv_path` (line 201) inside
it, attributes `__init__` never assigns. The external interrupt and any
other loop-level exception are observed at the item boundary, modelled as
a per-item signal. -/

/-- Attributes of a `LiveImageLoader` instance: the instance attributes
set in `__init__` followed by the methods of the class body
(src/DataLoader.py). -/
def liveImageLoaderAttrs : List String :=
  ["dir_x", "dir_y", "poll_interval", "supported_formats", "_stop_event",
   "_get_next_image_path", "_load_and_delete", "watch", "stop"]

/-- Python attribute lookup on a `LiveImageLoader` instance. -/
def loaderGetattr (name : String) : Except PyErr Unit :=
  if name ∈ liveImageLoaderAttrs then Except.ok () else
    Except.error (PyErr.attributeError name)

/-- Attributes of a `DetectionProcessor` instance: the four instance
attributes its `__init__` assigns followed by the methods of the class
body; `monitor`, `results_csv_path`, `run_info_csv_path` and
`csv_exporter` are referenced by the methods but never assigned. -/
def detectionProcessorAttrs : List String :=
  ["detector", "db", "data_loader", "run_config",
   "process_images", "_setup_database", "_execute_processing",
   "_process_single_image", "_save_result", "_finalize_processing",
   "_format_confidences", "_print_detection_result", "_print_summary"]

/-- Python attribute lookup on a `DetectionProcessor` instance. -/
def processorGetattr (name : String) : Except PyErr Unit :=
  if name ∈ detectionProcessorAttrs then Except.ok () else
    Except.error (PyErr.attributeError name)

/-- The text Python would report for an exception, `str(e)`. -/
def pyErrStr : PyErr → String
  | PyErr.attributeError a => a
  | PyErr.typeError m => m
  | PyErr.keyboardInterrupt => ""

/-- The run status enum persisted in `ai_runs.status`. -/
inductive RunStatus where
  | running
  | completed
  | failed
  | cancelled
deriving DecidableEq, Repr

/-- The per-item result dictionary of `_process_single_image` (the fields
the run accounting reads). -/
structure ItemResult where
  success : Bool
  error_message : Option String
  model_output : Option DetectOut
deriving DecidableEq, Repr

/-- `DetectionProcessor._process_single_image`: the try path runs the
detector and then `self.data_loader.get_image_info`; `except Exception`
catches either failure, and the handler itself calls
`self.data_loader.get_image_info` again before building the failure
record, so an error raised there escapes the per-item boundary. -/
def _process_single_image (detect_res : Except String DetectOut) :
    Except PyErr ItemResult :=
  match detect_res with
  | Except.ok r =>
    match loaderGetattr ("get_image_info") with
    | Except.ok _ =>
      Except.ok { success := true, error_message := none, model_output := some r }
    | Except.error e =>
      match loaderGetattr ("get_image_info") with
      | Except.ok _ =>
        Except.ok { success := false, error_message := some (pyErrStr e),
                    model_output := none }
      | Except.error e2 => Except.error e2
  | Except.error e =>
    match loaderGetattr ("get_image_info") with
    | Except.ok _ =>
      Except.ok { success := false, error_message := some e, model_output := none }
    | Except.error e2 => Except.error e2

/-- What happens around one item of the batch loop after the save: nothing,
an external interrupt, or some other exception escaping into the loop
handler. -/
inductive ItemSignal where
  | quiet
  | interrupt
  | fault (msg : String)
deriving DecidableEq, Repr

/-- The run outcome accumulated by `_execute_processing`. -/
structure RunOutcome where
  results : List ItemResult
  status : RunStatus
deriving DecidableEq, Repr

/-- `DetectionProcessor._save_result`: the database insert is wrapped in
its own `try/except`, but the CSV branch first reads
`self.results_csv_path`, an attribute `__init__` never assigns. -/
def _save_result : Except PyErr Unit :=
  match processorGetattr ("results_csv_path") with
  | Except.error e => Except.error e
  | Except.ok _ => Except.ok ()

/-- The item loop of `_execute_processing`: an exception escaping the
per-item step or the save is caught by the `except Exception` handler and
sets status `failed`; `interrupt` ends the run as `cancelled`; an
exhausted list ends it `completed`. -/
def execLoop (items : List (Except String DetectOut × ItemSignal))
    (acc : List ItemResult) : RunOutcome :=
  match items with
  | [] => { results := acc.reverse, status := RunStatus.completed }
  | (d, sig) :: rest =>
    match _process_single_image d with
    | Except.error _ => { results := acc.reverse, status := RunStatus.failed }
    | Except.ok r =>
      match _save_result with
      | Except.error _ =>
        { results := (r :: acc).reverse, status := RunStatus.failed }
      | Except.ok _ =>
        match sig with
        | ItemSignal.quiet => execLoop rest (r :: acc)
        | ItemSignal.interrupt =>
          { results := (r :: acc).reverse, status := RunStatus.cancelled }
        | ItemSignal.fault _ =>
          { results := (r :: acc).reverse, status := RunStatus.failed }

/-- `DetectionProcessor._execute_processing`: line 98 reads `self.monitor`
before the `try` block, so a lookup failure there escapes the method
without setting any status; otherwise the item loop runs. -/
def _execute_processing (items : List (Except String DetectOut × ItemSignal)) :
    Except PyErr RunOutcome :=
  match processorGetattr ("monitor") with
  | Except.error e => Except.error e
  | Except.ok _ => Except.ok (execLoop items [])

/-- C8 (code bug): the per-item containment the claim (and spec section
4.3) describes is broken by the source. `get_image_info` is missing on
`LiveImageLoader`, so every per-item step — in particular one whose
detector call fails — raises `AttributeError` out of the per-item
boundary instead of returning a failure record; the loop then marks the
run `failed` on its first item with no result recorded; and the read of
the never-assigned `self.monitor` aborts `_execute_processing` with an
`AttributeError` before any item at all. -/
theorem batch_run_attribute_error :
    ("get_image_info" ∉ liveImageLoaderAttrs ∧
     "monitor" ∉ detectionProcessorAttrs ∧
     "results_csv_path" ∉ detectionProcessorAttrs) ∧
    (∀ d : Except String DetectOut,
      _process_single_image d =
        Except.error (PyErr.attributeError ("get_image_info"))) ∧
    (∀ (d : Except String DetectOut) (sig : ItemSignal)
        (rest : List (Except String DetectOut × ItemSignal)),
      execLoop ((d, sig) :: rest) [] =
        { results := [], status := RunStatus.failed }) ∧
    (∀ items : List (Except String DetectOut × ItemSignal),
      _execute_processing items =
        Except.error (PyErr.attributeError ("monitor"))) := by
  have hattr : loaderGetattr ("get_image_info") =
      Except.error (PyErr.attributeError ("get_image_info")) := by
    rw [loaderGetattr, if_neg (by decide)]
  have hitem : ∀ d : Except String DetectOut,
      _process_single_image d =
        Except.error (PyErr.attributeError ("get_image_info")) := by
    intro d
    cases d with
    | ok r => simp [_process_single_image, hattr]
    | error e => simp [_process_single_image, hattr]
  refine ⟨by decide, hitem, ?_, ?_⟩
  · intro d sig rest
    rw [execLoop, hitem d]
    simp
  · intro items
    have hmon : processorGetattr ("monitor") =
        Except.error (PyErr.attributeError ("monitor")) := by
      rw [processorGetattr, if_neg (by decide)]
    rw [_execute_processing, hmon]

end Sitcheck

namespace Sitcheck

/-! ### The pairing query (claim about analyze_and_store, §4.4 of the spec) -/

/-- One stored detection of one source, as read back for pairing. -/
structure Observation where
  id : ℕ
  persons : ℤ
  confidence : Option ℚ
  timestamp : ℚ
deriving DecidableEq, Repr

/-- The row built for a cross-source pair of observations. -/
def mkPairRow (a b : Observation) : PairRow :=
  { x_id := a.id, y_id := b.id, x_persons := a.persons, y_persons := b.persons,
    x_confidence := a.confidence, y_confidence := b.confidence,
    time_diff := a.timestamp - b.timestamp }

/-- Candidate pairs ordered by ascending absolute time difference. -/
def by_abs_time_diff (p q : PairRow) : Prop := |p.time_diff| ≤ |q.time_diff|

instance : DecidableRel by_abs_time_diff :=
  fun p q => inferInstanceAs (Decidable (|p.time_diff| ≤ |q.time_diff|))

instance : IsTotal PairRow by_abs_time_diff :=
  ⟨fun p q => le_total |p.time_diff| |q.time_diff|⟩

instance : IsTrans PairRow by_abs_time_diff :=
  ⟨fun _ _ _ h h2 => le_trans h h2⟩

/-- Modelled from the spec: `DatabaseHandler.get_paired_detections` is
called by `TimeSeriesAnalyzer.analyze_and_store` but absent from the source
(the class body defines no method of that name). Per the spec it returns
the cross-product of the two per-source windows, keeps the pairs whose
absolute time difference is within `max_time_diff_seconds`, orders them by
ascending absolute time difference, and caps the result at `limit` rows. -/
def get_paired_detections (obs_x obs_y : List Observation)
    (max_time_diff_seconds : ℚ) (limit : ℕ) : List PairRow :=
  ((((obs_x.flatMap (fun a => obs_y.map (fun b => mkPairRow a b))).filter
      (fun p => decide (|p.time_diff| ≤ max_time_diff_seconds))).insertionSort
    by_abs_time_diff).take limit)

/-- C6: every candidate pair returned by the pairing query is a
cross-product pair within the time window; the candidate list is sorted by
ascending absolute time difference and capped at the limit; and every
estimate surviving the cycle comes from a candidate pair with
`|dt| <= max_time_diff` and `min(cx, cy) >= confidence_threshold`. -/
theorem pairing_cycle_invariants (a : TimeSeriesAnalyzer)
    (obs_x obs_y : List Observation) (limit : ℕ) :
    (∀ p ∈ get_paired_detections obs_x obs_y a.max_time_diff limit,
      |p.time_diff| ≤ a.max_time_diff ∧
      ∃ u ∈ obs_x, ∃ v ∈ obs_y, p = mkPairRow u v) ∧
    (get_paired_detections obs_x obs_y a.max_time_diff limit).length ≤ limit ∧
    List.Sorted by_abs_time_diff
      (get_paired_detections obs_x obs_y a.max_time_diff limit) ∧
    (∀ r ∈ cycleResults a (get_paired_detections obs_x obs_y a.max_time_diff limit),
      ∃ p ∈ get_paired_detections obs_x obs_y a.max_time_diff limit,
        _analyze_pair a p = some r ∧
        |p.time_diff| ≤ a.max_time_diff ∧
        a.confidence_threshold ≤
          min (confDefault p.x_confidence) (confDefault p.y_confidence)) := by
  have hmem : ∀ p ∈ get_paired_detections obs_x obs_y a.max_time_diff limit,
      |p.time_diff| ≤ a.max_time_diff ∧
      ∃ u ∈ obs_x, ∃ v ∈ obs_y, p = mkPairRow u v := by
    intro p hp
    have hsorted := List.mem_of_mem_take hp
    have hfil := (List.perm_insertionSort by_abs_time_diff _).subset hsorted
    rw [List.mem_filter] at hfil
    obtain ⟨hcross, htime⟩ := hfil
    refine ⟨of_decide_eq_true htime, ?_⟩
    rw [List.mem_flatMap] at hcross
    obtain ⟨u, hu, hmap⟩ := hcross
    rw [List.mem_map] at hmap
    obtain ⟨v, hv, rfl⟩ := hmap
    exact ⟨u, hu, v, hv, rfl⟩
  refine ⟨hmem, List.length_take_le _ _, ?_, ?_⟩
  · exact (List.sorted_insertionSort by_abs_time_diff _).take
  · intro r hr
    rw [cycleResults, List.mem_filterMap] at hr
    obtain ⟨p, hp, he⟩ := hr
    refine ⟨p, hp, he, (hmem p hp).1, ?_⟩
    by_contra hc
    have hlt : min (confDefault p.x_confidence) (confDefault p.y_confidence) <
        a.confidence_threshold := not_le.mp hc
    rw [min_lt_iff] at hlt
    have hnone : _analyze_pair a p = none := by
      rcases hlt with h | h
      · simp [_analyze_pair, h]
      · simp [_analyze_pair, h]
    rw [hnone] at he
    exact Option.noConfusion he

end Sitcheck

namespace Sitcheck

/-- A concrete x-side observation for the pairing-query witness. -/
def witObsX : Observation := { id := 1, persons := 3, confidence := some (4/5), timestamp := 0 }

/-- A concrete y-side observation for the pairing-query witness. -/
def witObsY : Observation := { id := 2, persons := 3, confidence := some (4/5), timestamp := 0 }

/-- Concrete instance of `pairing_cycle_invariants`: the single candidate
pair of two same-instant observations is in the window and comes from the
cross product. -/
theorem pairing_cycle_invariants_witness :
    |(mkPairRow witObsX witObsY).time_diff| ≤ TimeSeriesAnalyzer.defaults.max_time_diff ∧
    ∃ u ∈ [witObsX], ∃ v ∈ [witObsY], mkPairRow witObsX witObsY = mkPairRow u v :=
  (pairing_cycle_invariants TimeSeriesAnalyzer.defaults [witObsX] [witObsY] 100).1
    (mkPairRow witObsX witObsY)
    (by
      have harith : |(0 : ℚ) - 0| ≤ 5 := by norm_num
      simp [get_paired_detections, mkPairRow, witObsX, witObsY,
        TimeSeriesAnalyzer.defaults, List.insertionSort, harith])

end Sitcheck
